import Mathlib

/-!
The git_ca MLX bridge: a shallow embedding of `src/mlx_bridge.cc`.

The translation unit has one file-scoped flag, `g_model_loaded`, and two functions,
`load_model` and `generate_commit`.  Strings are modelled as lists of bytes (`Nat` values;
a well-formed `rust::Str` is valid UTF-8, which forces every byte below `0xF5`).

`generate_commit` builds its result with the converting constructors of `rust::String`
(`rust/cxx.h`, the cxx bridge library).  Those constructors validate their argument with
Rust's `core::str::from_utf8` and throw `std::invalid_argument` when it is not UTF-8, so
the embedding returns an `Except`.
-/

namespace git_ca

/-! ## Bytes and UTF-8 well-formedness (the `rust::Str` / `rust::String` invariant) -/

/-- The bytes of a C++ string literal whose characters are all ASCII. -/
def literal (s : String) : List Nat := s.toList.map Char.toNat

/-- Width of a UTF-8 sequence from its first byte, as in `core::str::utf8_char_width`:
`0` marks a byte that cannot start a sequence. -/
def utf8_char_width (first : Nat) : Nat :=
  if first < 0x80 then 1
  else if 0xC2 ≤ first ∧ first ≤ 0xDF then 2
  else if 0xE0 ≤ first ∧ first ≤ 0xEF then 3
  else if 0xF0 ≤ first ∧ first ≤ 0xF4 then 4
  else 0

/-- A continuation byte, `0x80..=0xBF`. -/
def isCont (b : Nat) : Bool := decide (0x80 ≤ b ∧ b ≤ 0xBF)

/-- Admissible second byte of a three-byte sequence, by first byte. -/
def second3 (first b : Nat) : Bool :=
  (first == 0xE0 && decide (0xA0 ≤ b ∧ b ≤ 0xBF)) ||
  (decide (0xE1 ≤ first ∧ first ≤ 0xEC) && isCont b) ||
  (first == 0xED && decide (0x80 ≤ b ∧ b ≤ 0x9F)) ||
  (decide (0xEE ≤ first ∧ first ≤ 0xEF) && isCont b)

/-- Admissible second byte of a four-byte sequence, by first byte. -/
def second4 (first b : Nat) : Bool :=
  (first == 0xF0 && decide (0x90 ≤ b ∧ b ≤ 0xBF)) ||
  (decide (0xF1 ≤ first ∧ first ≤ 0xF3) && isCont b) ||
  (first == 0xF4 && decide (0x80 ≤ b ∧ b ≤ 0x8F))

/-- UTF-8 validation of a byte sequence, following `core::str::from_utf8`
(`run_utf8_validation`): read the first byte, take its width, check the bytes that follow. -/
def validUtf8 : List Nat → Bool
  | [] => true
  | first :: rest =>
    match utf8_char_width first, rest with
    | 1, rest => validUtf8 rest
    | 2, b1 :: rest => isCont b1 && validUtf8 rest
    | 3, b1 :: b2 :: rest => second3 first b1 && isCont b2 && validUtf8 rest
    | 4, b1 :: b2 :: b3 :: rest => second4 first b1 && isCont b2 && isCont b3 && validUtf8 rest
    | _, _ => false

/-! ## The cxx bridge types -/

deriving instance DecidableEq for Except

/-- C++ exceptions that can leave the functions of this unit. -/
inductive CxxException where
  | invalid_argument
  deriving DecidableEq, Repr

/-- The converting constructors `rust::String(const std::string &)` and
`rust::String(const char *)`: the bytes are kept when they are UTF-8, otherwise
`std::invalid_argument("data for rust::String is not utf-8")` is thrown. -/
def rustString (bytes : List Nat) : Except CxxException (List Nat) :=
  if validUtf8 bytes then .ok bytes else .error .invalid_argument

/-- The call `std::string::resize(n)`: cut to `n` bytes, or pad with zero bytes up to `n`. -/
def resize (str : List Nat) (n : Nat) : List Nat :=
  str.take n ++ List.replicate (n - str.length) 0

/-! ## State and operations of `mlx_bridge.cc` -/

/-- The file-scoped state of the translation unit. -/
structure State where
  g_model_loaded : Bool
  deriving DecidableEq, Repr

/-- State at program start: `bool g_model_loaded = false;`. -/
def initial : State := { g_model_loaded := false }

/-- The literal returned while no model is loaded. -/
def sentinel : List Nat := literal "[mlx-error: model not initialized]"

/-- The literal bound to the local `std::string` that starts every placeholder answer. -/
def placeholder : List Nat := literal "[mlx-placeholder] "

/-- The function `load_model`: the path is discarded, the flag is set; nothing is returned. -/
def load_model (s : State) (model_path : List Nat) : State :=
  let _ := model_path
  { s with g_model_loaded := true }

/-- The function `generate_commit`: the outcome of the call and the state after it. -/
def generate_commit (s : State) (diff_text : List Nat) :
    Except CxxException (List Nat) × State :=
  if !s.g_model_loaded then
    (rustString sentinel, s)
  else
    let pfx := placeholder
    let diff_str := diff_text
    let diff_str := if diff_str.length > 48 then resize diff_str 48 else diff_str
    (rustString (pfx ++ diff_str), s)

/-- A success-shaped answer starts with the placeholder marker. -/
def successShaped (r : List Nat) : Prop := placeholder <+: r

instance (r : List Nat) : Decidable (successShaped r) := by
  unfold successShaped; infer_instance

/-- A 49-byte diff, valid UTF-8: 47 times `a`, then `é` (`C3 A9`). -/
def splitDiff : List Nat := List.replicate 47 0x61 ++ [0xC3, 0xA9]

/-- A 49-byte diff, valid UTF-8: 47 times `a`, then `ñ` (`C3 B1`). -/
def tildeDiff : List Nat := List.replicate 47 0x61 ++ [0xC3, 0xB1]

/-- A 49-byte diff, valid UTF-8: 46 times `a`, then `€` (`E2 82 AC`). -/
def euroDiff : List Nat := List.replicate 46 0x61 ++ [0xE2, 0x82, 0xAC]

/-! ## Sequences of calls -/

/-- One call made by the host on the bridge. -/
inductive Call where
  | load_model (model_path : List Nat)
  | generate_commit (diff_text : List Nat)
  deriving DecidableEq, Repr

/-- Whether a call is a `load_model` call. -/
def Call.isLoad : Call → Bool
  | .load_model _ => true
  | .generate_commit _ => false

/-- The state after one call. -/
def step (s : State) : Call → State
  | .load_model model_path => load_model s model_path
  | .generate_commit diff_text => (generate_commit s diff_text).2

/-- The state after a sequence of calls, made in order. -/
def run (s : State) (calls : List Call) : State := calls.foldl step s

/-! ## Basic facts about the embedding -/

theorem sentinel_bytes :
    sentinel = [91, 109, 108, 120, 45, 101, 114, 114, 111, 114, 58, 32, 109, 111, 100, 101,
      108, 32, 110, 111, 116, 32, 105, 110, 105, 116, 105, 97, 108, 105, 122, 101, 100, 93] := by
  decide

theorem placeholder_bytes :
    placeholder = [91, 109, 108, 120, 45, 112, 108, 97, 99, 101, 104, 111, 108, 100, 101, 114,
      93, 32] := by
  decide

theorem sentinel_length : sentinel.length = 34 := by decide

theorem placeholder_length : placeholder.length = 18 := by decide

theorem validUtf8_sentinel : validUtf8 sentinel = true := by decide

theorem sentinel_not_successShaped : ¬ successShaped sentinel := by decide

/-- An ASCII byte is a complete one-byte sequence. -/
theorem validUtf8_cons_ascii (b : Nat) (x : List Nat) (hb : b < 0x80) :
    validUtf8 (b :: x) = validUtf8 x := by
  have hw : utf8_char_width b = 1 := by simp [utf8_char_width, hb]
  simp [validUtf8, hw]

/-- ASCII bytes in front of a byte sequence do not change its well-formedness. -/
theorem validUtf8_ascii_append (a x : List Nat) (ha : ∀ b ∈ a, b < 0x80) :
    validUtf8 (a ++ x) = validUtf8 x := by
  induction a with
  | nil => rfl
  | cons b a ih =>
    have hb : b < 0x80 := ha b (List.mem_cons_self b a)
    have hrest : ∀ c ∈ a, c < 0x80 := fun c hc => ha c (List.mem_cons_of_mem b hc)
    rw [List.cons_append, validUtf8_cons_ascii b (a ++ x) hb, ih hrest]

theorem validUtf8_placeholder_append (x : List Nat) :
    validUtf8 (placeholder ++ x) = validUtf8 x := by
  apply validUtf8_ascii_append
  rw [placeholder_bytes]
  decide

/-- The guarded `resize(48)` of `generate_commit` keeps the first 48 bytes. -/
theorem guarded_resize (d : List Nat) :
    (if d.length > 48 then resize d 48 else d) = d.take 48 := by
  by_cases h : d.length > 48
  · have h0 : 48 - d.length = 0 := by omega
    simp [h, resize, h0]
  · have hle : d.length ≤ 48 := by omega
    simp [h, List.take_of_length_le hle]

theorem generate_commit_not_loaded (s : State) (d : List Nat)
    (h : s.g_model_loaded = false) : generate_commit s d = (.ok sentinel, s) := by
  simp [generate_commit, h, rustString, validUtf8_sentinel]

theorem generate_commit_loaded (s : State) (d : List Nat) (h : s.g_model_loaded = true) :
    generate_commit s d = (rustString (placeholder ++ d.take 48), s) := by
  simp only [generate_commit, h, guarded_resize]
  rfl

/-- With a model loaded the call returns exactly when the cut diff is still UTF-8. -/
theorem generate_commit_loaded_valid (s : State) (d : List Nat)
    (h : s.g_model_loaded = true) (hv : validUtf8 (d.take 48) = true) :
    generate_commit s d = (.ok (placeholder ++ d.take 48), s) := by
  rw [generate_commit_loaded s d h, rustString, validUtf8_placeholder_append, hv]
  rfl

theorem generate_commit_loaded_invalid (s : State) (d : List Nat)
    (h : s.g_model_loaded = true) (hv : validUtf8 (d.take 48) = false) :
    generate_commit s d = (.error .invalid_argument, s) := by
  rw [generate_commit_loaded s d h, rustString, validUtf8_placeholder_append, hv]
  rfl

/-- Whatever is returned with a model loaded is the marker followed by the cut diff. -/
theorem generate_commit_loaded_ok (s : State) (d r : List Nat)
    (h : s.g_model_loaded = true) (hr : (generate_commit s d).1 = .ok r) :
    r = placeholder ++ d.take 48 := by
  rw [generate_commit_loaded s d h] at hr
  simp only [rustString] at hr
  split at hr
  · exact (Except.ok.inj hr).symm
  · cases hr

theorem generate_commit_state (s : State) (d : List Nat) : (generate_commit s d).2 = s := by
  cases hs : s.g_model_loaded
  · rw [generate_commit_not_loaded s d hs]
  · rw [generate_commit_loaded s d hs]

/-! ## Calls before any load -/

/-- C1: in the initial state (no `load_model` yet) `generate_commit` returns, for every
diff, exactly the text `[mlx-error: model not initialized]`, leaves the state as it was,
and that text is not success-shaped (it does not start with `[mlx-placeholder] `). -/
theorem generate_commit_initial (d : List Nat) :
    generate_commit initial d = (.ok sentinel, initial) ∧
      sentinel = literal "[mlx-error: model not initialized]" ∧
      ¬ successShaped sentinel :=
  ⟨generate_commit_not_loaded initial d rfl, rfl, sentinel_not_successShaped⟩

/-! ## Load, then generate -/

/-- C2: after `load_model` the flag is set whatever the path and the prior state, but the
next `generate_commit` does not return for every diff: on `splitDiff` (valid UTF-8, 49
bytes) the cut at byte 48 leaves a lone lead byte and `std::invalid_argument` is thrown,
so no value, success-shaped or not, is returned. -/
theorem load_then_generate_splitDiff :
    (∀ (s : State) (p : List Nat), (load_model s p).g_model_loaded = true) ∧
      validUtf8 splitDiff = true ∧
      (generate_commit (load_model initial (literal "model.bin")) splitDiff).1
        = .error .invalid_argument ∧
      ∀ r, (generate_commit (load_model initial (literal "model.bin")) splitDiff).1 ≠ .ok r := by
  refine ⟨fun _ _ => rfl, by decide, by decide, ?_⟩
  intro r hr
  have h : (generate_commit (load_model initial (literal "model.bin")) splitDiff).1
      = .error .invalid_argument := by decide
  rw [h] at hr
  cases hr

/-- C3, as stated, fails: with no path existing at all, `load_model` still sets the flag
and a following `generate_commit` answers with placeholder text, not with the
not-initialized text. -/
theorem load_model_missing_path_counterexample :
    ¬ (∀ (pathExists : List Nat → Bool) (p : List Nat), pathExists p = false →
        (load_model initial p).g_model_loaded = false ∧
        (generate_commit (load_model initial p) (literal "diff")).1 = .ok sentinel) := by
  intro h
  have h1 := (h (fun _ => false) (literal "/no/such/model") rfl).1
  exact absurd h1 (by decide)

/-- C3, amended: for every path that does not exist (as for every other path) and every
prior state, `load_model` sets `g_model_loaded`, and a following `generate_commit` never
returns the not-initialized text; whatever it returns is success-shaped. -/
theorem load_model_missing_path (pathExists : List Nat → Bool) (p : List Nat) (s : State)
    (d : List Nat) (_hp : pathExists p = false) :
    (load_model s p).g_model_loaded = true ∧
      (generate_commit (load_model s p) d).1 ≠ .ok sentinel ∧
      ∀ r, (generate_commit (load_model s p) d).1 = .ok r → successShaped r := by
  have hl : (load_model s p).g_model_loaded = true := rfl
  have hshape : ∀ r, (generate_commit (load_model s p) d).1 = .ok r → successShaped r := by
    intro r hr
    rw [generate_commit_loaded_ok _ d r hl hr]
    exact ⟨d.take 48, rfl⟩
  refine ⟨hl, ?_, hshape⟩
  intro hs
  exact sentinel_not_successShaped (hshape sentinel hs)

/-- Instance of the amended C3 at the path `/no/such/model` with no path existing. -/
theorem load_model_missing_path_witness :
    (fun _ : List Nat => false) (literal "/no/such/model") = false ∧
      (load_model initial (literal "/no/such/model")).g_model_loaded = true ∧
      (generate_commit (load_model initial (literal "/no/such/model")) (literal "diff")).1
        ≠ .ok sentinel ∧
      ∀ r, (generate_commit (load_model initial (literal "/no/such/model"))
        (literal "diff")).1 = .ok r → successShaped r :=
  ⟨rfl, load_model_missing_path (fun _ => false) (literal "/no/such/model") initial
    (literal "diff") rfl⟩

/-! ## The placeholder answer -/

/-- C4: on `splitDiff` (49 bytes) the loaded `generate_commit` does not return the marker
followed by the first `min 49 48` bytes: those 66 bytes are not UTF-8 and the call throws.
On the 5-byte diff `hello` it does return the marker followed by the diff. -/
theorem generate_commit_splitDiff_not_cut :
    splitDiff.length = 49 ∧
      (generate_commit { g_model_loaded := true } splitDiff).1
        ≠ .ok (placeholder ++ splitDiff.take (min splitDiff.length 48)) ∧
      (generate_commit { g_model_loaded := true } (literal "hello")).1
        = .ok (placeholder ++ literal "hello") := by
  refine ⟨by decide, by decide, by decide⟩

/-- C5: every string returned by `generate_commit` has at most 66 bytes, whatever the state
and however long the diff; returned with a model loaded it has exactly
`18 + min (length of the diff) 48` bytes, returned without one exactly 34. -/
theorem generate_commit_length (s : State) (d r : List Nat)
    (hr : (generate_commit s d).1 = .ok r) :
    r.length ≤ 66 ∧
      (s.g_model_loaded = true → r.length = 18 + min d.length 48) ∧
      (s.g_model_loaded = false → r.length = 34) := by
  cases hs : s.g_model_loaded
  · rw [generate_commit_not_loaded s d hs] at hr
    have hrs : r = sentinel := (Except.ok.inj hr).symm
    subst hrs
    simp [sentinel_length]
  · have hrs := generate_commit_loaded_ok s d r hs hr
    have hlen : r.length = 18 + min d.length 48 := by
      rw [hrs, List.length_append, placeholder_length, List.length_take, Nat.min_comm]
    refine ⟨by omega, fun _ => hlen, fun h => by cases h⟩

/-- Instance of C5 at a loaded state and a diff of 100 bytes. -/
theorem generate_commit_length_witness :
    (generate_commit { g_model_loaded := true } (List.replicate 100 0x61)).1
        = .ok (placeholder ++ List.replicate 48 0x61) ∧
      (placeholder ++ List.replicate 48 0x61).length ≤ 66 ∧
      (({ g_model_loaded := true } : State).g_model_loaded = true →
        (placeholder ++ List.replicate 48 0x61).length
          = 18 + min (List.replicate 100 0x61).length 48) ∧
      (({ g_model_loaded := true } : State).g_model_loaded = false →
        (placeholder ++ List.replicate 48 0x61).length = 34) :=
  ⟨by decide, generate_commit_length { g_model_loaded := true } (List.replicate 100 0x61)
    (placeholder ++ List.replicate 48 0x61) (by decide)⟩

/-- C6: a string returned with a model loaded is never the not-initialized text, not even
for a diff equal to that text, and a string returned without a model is always that text;
so two calls returning the same string ran with the same flag, and the flag is set exactly
when the returned string differs from the not-initialized text. -/
theorem generate_commit_outcomes_distinct (s s' : State) (d d' r : List Nat)
    (hr : (generate_commit s d).1 = .ok r) (hr' : (generate_commit s' d').1 = .ok r) :
    s.g_model_loaded = s'.g_model_loaded ∧
      (s.g_model_loaded = true ↔ r ≠ sentinel) ∧
      (s.g_model_loaded = true ↔ successShaped r) := by
  have key : ∀ (t : State) (e : List Nat), (generate_commit t e).1 = .ok r →
      (t.g_model_loaded = true ↔ successShaped r) := by
    intro t e ht
    cases hs : t.g_model_loaded
    · rw [generate_commit_not_loaded t e hs] at ht
      have hrs : r = sentinel := (Except.ok.inj ht).symm
      subst hrs
      simp [sentinel_not_successShaped]
    · have hrs := generate_commit_loaded_ok t e r hs ht
      subst hrs
      simp [successShaped]
  have hsent : ∀ (t : State) (e : List Nat), (generate_commit t e).1 = .ok r →
      (t.g_model_loaded = true ↔ r ≠ sentinel) := by
    intro t e ht
    cases hs : t.g_model_loaded
    · rw [generate_commit_not_loaded t e hs] at ht
      have hrs : r = sentinel := (Except.ok.inj ht).symm
      simp [hrs]
    · have hshape : successShaped r := (key t e ht).1 hs
      have hne : r ≠ sentinel := fun h => sentinel_not_successShaped (h ▸ hshape)
      simp [hne]
  refine ⟨?_, hsent s d hr, key s d hr⟩
  have h1 := key s d hr
  have h2 := key s' d' hr'
  cases hs : s.g_model_loaded <;> cases hs' : s'.g_model_loaded <;> simp_all

/-- Instance of C6 at a diff equal to the not-initialized text. -/
theorem generate_commit_outcomes_distinct_witness :
    (generate_commit { g_model_loaded := true } sentinel).1 = .ok (placeholder ++ sentinel) ∧
      (generate_commit (load_model initial []) sentinel).1 = .ok (placeholder ++ sentinel) ∧
      (({ g_model_loaded := true } : State).g_model_loaded
          = (load_model initial []).g_model_loaded ∧
        (({ g_model_loaded := true } : State).g_model_loaded = true
          ↔ placeholder ++ sentinel ≠ sentinel) ∧
        (({ g_model_loaded := true } : State).g_model_loaded = true
          ↔ successShaped (placeholder ++ sentinel))) :=
  ⟨by decide, by decide,
    generate_commit_outcomes_distinct { g_model_loaded := true } (load_model initial [])
      sentinel sentinel (placeholder ++ sentinel) (by decide) (by decide)⟩

/-- C7: the outcome of `generate_commit` depends on the flag and the diff only: after
`load_model` with any two paths (from any two states) the same diff gives the same outcome,
the outcome in a state is the outcome in the state rebuilt from its flag alone, and since
the call leaves the state as it was, repeating it gives the same outcome again. -/
theorem generate_commit_deterministic (s₁ s₂ : State) (p₁ p₂ d : List Nat) :
    (generate_commit (load_model s₁ p₁) d).1 = (generate_commit (load_model s₂ p₂) d).1 ∧
      (generate_commit s₁ d).1
        = (generate_commit { g_model_loaded := s₁.g_model_loaded } d).1 ∧
      (generate_commit s₁ d).2 = s₁ ∧
      generate_commit (generate_commit s₁ d).2 d = generate_commit s₁ d := by
  refine ⟨rfl, rfl, generate_commit_state s₁ d, ?_⟩
  rw [generate_commit_state]

/-! ## Cutting inside a character -/

/-- C8: `splitDiff` is valid UTF-8, yet with a model loaded the marker followed by its
first 48 bytes is not (the cut keeps `C3` and drops `A9`), so the `rust::String`
constructor throws `std::invalid_argument` and `generate_commit` returns no value. -/
theorem generate_commit_splitDiff_throws :
    validUtf8 splitDiff = true ∧
      splitDiff.take 48 = List.replicate 47 0x61 ++ [0xC3] ∧
      validUtf8 (placeholder ++ splitDiff.take 48) = false ∧
      generate_commit { g_model_loaded := true } splitDiff
        = (.error .invalid_argument, { g_model_loaded := true }) := by
  refine ⟨by decide, by decide, by decide, by decide⟩

/-! ## Truncation -/

/-- Where the first 48 bytes of a diff are UTF-8, the loaded call returns the marker
followed by them, the same as on those 48 bytes alone and on every diff sharing them. -/
theorem generate_commit_take_of_valid (s : State) (d₁ d₂ : List Nat)
    (hs : s.g_model_loaded = true) (hv : validUtf8 (d₁.take 48) = true)
    (h : d₁.take 48 = d₂.take 48) :
    (generate_commit s d₁).1 = .ok (placeholder ++ d₁.take 48) ∧
      generate_commit s (d₁.take 48) = generate_commit s d₁ ∧
      generate_commit s d₂ = generate_commit s d₁ := by
  have r₁ := generate_commit_loaded_valid s d₁ hs hv
  have r₂ := generate_commit_loaded_valid s d₂ hs (h ▸ hv)
  have hvv : validUtf8 ((d₁.take 48).take 48) = true := by
    rw [List.take_take, Nat.min_self]; exact hv
  have r₃ := generate_commit_loaded_valid s (d₁.take 48) hs hvv
  rw [List.take_take, Nat.min_self] at r₃
  refine ⟨by rw [r₁], by rw [r₃, r₁], by rw [r₂, r₁, h]⟩

/-- Two diffs on which the loaded call returns the same string share their first 48 bytes. -/
theorem generate_commit_ok_take_eq (s : State) (e₁ e₂ r : List Nat)
    (hs : s.g_model_loaded = true)
    (h₁ : (generate_commit s e₁).1 = .ok r) (h₂ : (generate_commit s e₂).1 = .ok r) :
    e₁.take 48 = e₂.take 48 := by
  have r₁ := generate_commit_loaded_ok s e₁ r hs h₁
  have r₂ := generate_commit_loaded_ok s e₂ r hs h₂
  exact List.append_cancel_left (r₁.symm.trans r₂)

/-- C10: with a model loaded, truncation loses more than the bytes past position 48 on
`splitDiff`, `tildeDiff` and `euroDiff`, all valid UTF-8 of 49 bytes. The first 48 bytes
of `splitDiff` are not UTF-8, so they are no diff the function can be called on, and the
call on `splitDiff` throws and returns no output. `splitDiff` and `tildeDiff` agree on
their first 48 bytes and neither produces an output. `splitDiff` and `euroDiff` differ
within their first 48 bytes and yet have the same outcome, so bytes before position 48
are lost as well. -/
theorem generate_commit_take_splitDiff :
    (validUtf8 splitDiff = true ∧ validUtf8 tildeDiff = true ∧ validUtf8 euroDiff = true) ∧
      validUtf8 (splitDiff.take 48) = false ∧
      (generate_commit { g_model_loaded := true } splitDiff).1 = .error .invalid_argument ∧
      (splitDiff.take 48 = tildeDiff.take 48 ∧
        (generate_commit { g_model_loaded := true } tildeDiff).1
          = .error .invalid_argument) ∧
      (splitDiff.take 48 ≠ euroDiff.take 48 ∧
        (generate_commit { g_model_loaded := true } euroDiff).1
          = (generate_commit { g_model_loaded := true } splitDiff).1) := by
  refine ⟨⟨by decide, by decide, by decide⟩, by decide, by decide,
    ⟨by decide, by decide⟩, ⟨by decide, by decide⟩⟩

/-! ## Short diffs -/

/-- C11: with a model loaded, on diffs of at most 48 bytes (valid UTF-8, as every
`rust::Str` is) `generate_commit` returns the marker followed by the whole diff, so
dropping the first 18 bytes of the returned string gives the diff back, and two such diffs
with the same outcome are equal. -/
theorem generate_commit_short_injective (s : State) (d₁ d₂ : List Nat)
    (hs : s.g_model_loaded = true)
    (h₁ : d₁.length ≤ 48) (h₂ : d₂.length ≤ 48)
    (v₁ : validUtf8 d₁ = true) (v₂ : validUtf8 d₂ = true) :
    (generate_commit s d₁).1 = .ok (placeholder ++ d₁) ∧
      (placeholder ++ d₁).drop 18 = d₁ ∧
      ((generate_commit s d₁).1 = (generate_commit s d₂).1 → d₁ = d₂) := by
  have t₁ : d₁.take 48 = d₁ := List.take_of_length_le h₁
  have t₂ : d₂.take 48 = d₂ := List.take_of_length_le h₂
  have r₁ : generate_commit s d₁ = (.ok (placeholder ++ d₁), s) := by
    have h := generate_commit_loaded_valid s d₁ hs (by rw [t₁]; exact v₁)
    rwa [t₁] at h
  have r₂ : generate_commit s d₂ = (.ok (placeholder ++ d₂), s) := by
    have h := generate_commit_loaded_valid s d₂ hs (by rw [t₂]; exact v₂)
    rwa [t₂] at h
  refine ⟨by rw [r₁], ?_, ?_⟩
  · have h18 : placeholder.length = 18 := placeholder_length
    rw [← h18]
    exact List.drop_left placeholder d₁
  · intro h
    rw [r₁, r₂] at h
    exact List.append_cancel_left (Except.ok.inj h)

/-- Instance of C11 at the diffs `fix: typo` and `fix: type` with a model loaded. -/
theorem generate_commit_short_injective_witness :
    ({ g_model_loaded := true } : State).g_model_loaded = true ∧
      (literal "fix: typo").length ≤ 48 ∧ (literal "fix: type").length ≤ 48 ∧
      validUtf8 (literal "fix: typo") = true ∧ validUtf8 (literal "fix: type") = true ∧
      ((generate_commit { g_model_loaded := true } (literal "fix: typo")).1
          = .ok (placeholder ++ literal "fix: typo") ∧
        (placeholder ++ literal "fix: typo").drop 18 = literal "fix: typo" ∧
        ((generate_commit { g_model_loaded := true } (literal "fix: typo")).1
            = (generate_commit { g_model_loaded := true } (literal "fix: type")).1 →
          literal "fix: typo" = literal "fix: type")) :=
  ⟨rfl, by decide, by decide, by decide, by decide,
    generate_commit_short_injective { g_model_loaded := true } (literal "fix: typo")
      (literal "fix: type") rfl (by decide) (by decide) (by decide) (by decide)⟩

/-! ## Effects on the state -/

/-- C12: `generate_commit` leaves the flag as it found it, in the branch without a model
and in the branch with one, and `load_model` twice gives the state of the second
`load_model` alone, whatever the two paths. -/
theorem generate_commit_frame_load_model_idem (s : State) (d p q : List Nat) :
    (generate_commit s d).2.g_model_loaded = s.g_model_loaded ∧
      (generate_commit { g_model_loaded := false } d).2 = { g_model_loaded := false } ∧
      (generate_commit { g_model_loaded := true } d).2 = { g_model_loaded := true } ∧
      load_model (load_model s p) q = load_model s q := by
  refine ⟨by rw [generate_commit_state], generate_commit_state _ d,
    generate_commit_state _ d, rfl⟩

/-! ## Sequences of calls: loaded is absorbing -/

/-- The not-initialized text is returned exactly when the flag is not set. -/
theorem generate_commit_sentinel_iff (s : State) (d : List Nat) :
    (generate_commit s d).1 = .ok sentinel ↔ s.g_model_loaded = false := by
  constructor
  · intro h
    cases hs : s.g_model_loaded
    · rfl
    · have hr := generate_commit_loaded_ok s d sentinel hs h
      exact absurd ⟨d.take 48, hr.symm⟩ sentinel_not_successShaped
  · intro hs
    rw [generate_commit_not_loaded s d hs]

theorem step_flag (s : State) (c : Call) :
    (step s c).g_model_loaded = (s.g_model_loaded || c.isLoad) := by
  cases c with
  | load_model p => simp [step, load_model, Call.isLoad]
  | generate_commit d => simp [step, generate_commit_state, Call.isLoad]

/-- The flag after a sequence of calls: set before, or set by a `load_model` in it. -/
theorem run_flag (s : State) (calls : List Call) :
    (run s calls).g_model_loaded = (s.g_model_loaded || calls.any Call.isLoad) := by
  induction calls generalizing s with
  | nil => simp [run]
  | cons c cs ih =>
    have hrun : run s (c :: cs) = run (step s c) cs := rfl
    rw [hrun, ih (step s c), step_flag, List.any_cons, Bool.or_assoc]

/-- C13: in a sequence of calls from the initial state, a `generate_commit` call returns
the not-initialized text if and only if no `load_model` call comes before it; so once a
`load_model` call has occurred, no later `generate_commit` call returns that text, whatever
calls lie in between. -/
theorem generate_commit_sentinel_iff_no_load (before between : List Call)
    (p d : List Nat) :
    ((generate_commit (run initial before) d).1 = .ok sentinel
        ↔ ∀ c ∈ before, c.isLoad = false) ∧
      (generate_commit (run initial (before ++ Call.load_model p :: between)) d).1
        ≠ .ok sentinel := by
  have key : ∀ calls : List Call,
      ((generate_commit (run initial calls) d).1 = .ok sentinel
        ↔ ∀ c ∈ calls, c.isLoad = false) := by
    intro calls
    rw [generate_commit_sentinel_iff, run_flag]
    simp [initial]
  refine ⟨key before, ?_⟩
  intro h
  have hall := (key (before ++ Call.load_model p :: between)).1 h
  have hmem : Call.load_model p ∈ before ++ Call.load_model p :: between := by simp
  exact absurd (hall _ hmem) (by simp [Call.isLoad])

end git_ca
